import Mathlib

/-!
Verification of the scroll-position-driven section tracker (`ElegantNavigation`
in `src/Footer.tsx`) and the preloader-gated page lifecycle (`Index` in
`src/Index.tsx`) of the SDS landing-page repository.

The DOM surface the code touches is embedded shallowly: a document state is a
lookup from element id to an optional bounding rectangle, the vertical scroll
offset is an integer number of pixels, and the side effects the code performs
(state setters, `scrollIntoView` calls, writes to `document.body.style.overflow`)
become explicit state transformations or returned effect lists.
-/

namespace SDS

/-- Bounding rectangle of a DOM element relative to the viewport, restricted to
the two fields the code reads (`rect.top`, `rect.bottom`), in pixels. -/
structure Rect where
  top : Int
  bottom : Int
deriving DecidableEq

/-- A document state: `document.getElementById` as a lookup from an id to the
element's current bounding rectangle, `none` when no such element is present. -/
def Document : Type := String → Option Rect

/-- `src/Footer.tsx` line 140: the declared section order,
`const sections = ["hero", "services", "work", "about", "contact"]`. -/
def sections : List String := ["hero", "services", "work", "about", "contact"]

/-- The predicate passed to `sections.find` in `handleScroll`
(`src/Footer.tsx` lines 141-148): look the section up in the document; when the
element is present return `rect.top <= 100 && rect.bottom >= 100`, and when it
is absent return `false` (the explicit `return false` branch). -/
def sectionMatches (doc : Document) (sec : String) : Bool :=
  match doc sec with
  | some rect => decide (rect.top ≤ 100) && decide (rect.bottom ≥ 100)
  | none => false

/-- The two pieces of component state of `ElegantNavigation`
(`src/Footer.tsx` lines 132-133): `isScrolled` and `activeSection`. -/
structure NavState where
  isScrolled : Bool
  activeSection : String
deriving DecidableEq

/-- Initial state: `useState(false)` and `useState("")`. -/
def initNavState : NavState := { isScrolled := false, activeSection := "" }

/-- `handleScroll` (`src/Footer.tsx` lines 136-153): set
`isScrolled = window.scrollY > 50`; compute
`currentSection = sections.find(...)`; then `if (currentSection)` set
`activeSection` to it.  A JavaScript string is truthy iff non-empty, so the
guard keeps the previous `activeSection` both when `find` returns `undefined`
and when it would return an empty string. -/
def handleScroll (doc : Document) (scrollY : Int) (st : NavState) : NavState :=
  let isScrolled := decide (scrollY > 50)
  match sections.find? (sectionMatches doc) with
  | some sec =>
      if sec = "" then { isScrolled := isScrolled, activeSection := st.activeSection }
      else { isScrolled := isScrolled, activeSection := sec }
  | none => { isScrolled := isScrolled, activeSection := st.activeSection }

/-- A scroll event as the tracker sees it: the document geometry and the
vertical scroll offset at the moment the handler runs. -/
structure ScrollEvent where
  doc : Document
  scrollY : Int

/-- Run `handleScroll` over a sequence of scroll events. -/
def runNav (st : NavState) (evs : List ScrollEvent) : NavState :=
  evs.foldl (fun s e => handleScroll e.doc e.scrollY s) st

/-- `src/Footer.tsx` lines 166-170: the rendered navigation items. -/
def navItems : List String := ["work", "services", "about"]

/-- How many rendered nav items show the active highlight: the render guard is
`activeSection === item.id` (`src/Footer.tsx` lines 207, 215). -/
def activeIndicatorCount (st : NavState) : Nat :=
  (navItems.filter (fun it => decide (it = st.activeSection))).length

/-- The `behavior` option of `scrollIntoView`; the code always passes
`"smooth"`. -/
inductive ScrollBehavior where
  | smooth
  | auto
deriving DecidableEq

/-- The `block` option of `scrollIntoView`; the code passes none, and the DOM
default is `"start"`, which aligns the element's top with the viewport top. -/
inductive BlockAlign where
  | start
  | center
  | nearest
deriving DecidableEq

/-- One `element.scrollIntoView(...)` invocation. -/
structure ScrollIntoViewCall where
  target : String
  behavior : ScrollBehavior
  block : BlockAlign
deriving DecidableEq

/-- `scrollToSection` (`src/Footer.tsx` lines 6-11 and 159-164, identical in
both components): look the id up; if the element is present, call
`element.scrollIntoView({ behavior: "smooth" })` on it — one invocation, smooth
behavior, DOM-default `block: "start"` — otherwise do nothing.  The returned
list is the sequence of `scrollIntoView` invocations performed. -/
def scrollToSection (doc : Document) (sectionId : String) : List ScrollIntoViewCall :=
  match doc sectionId with
  | some _ => [{ target := sectionId, behavior := ScrollBehavior.smooth, block := BlockAlign.start }]
  | none => []

/-- The state the `Index` page component touches (`src/Index.tsx`):
its `isLoaded` flag, the `document.body.style.overflow` value, and whether the
`dark` class is on the document element. -/
structure IndexState where
  isLoaded : Bool
  bodyOverflow : String
  darkClass : Bool
deriving DecidableEq

/-- The mount effect (`src/Index.tsx` lines 72-78): add the `dark` class and
set `document.body.style.overflow = "hidden"`. -/
def mountEffect (s : IndexState) : IndexState :=
  { s with darkClass := true, bodyOverflow := "hidden" }

/-- The page right after mount, starting from an environment whose body
overflow was `prior` and whose dark flag was `d`: `useState(false)` gives
`isLoaded = false`, then the mount effect runs. -/
def indexMount (prior : String) (d : Bool) : IndexState :=
  mountEffect { isLoaded := false, bodyOverflow := prior, darkClass := d }

/-- `handlePreloaderComplete` (`src/Index.tsx` lines 85-88):
`setIsLoaded(true)` and `document.body.style.overflow = "unset"`. -/
def handlePreloaderComplete (s : IndexState) : IndexState :=
  { s with isLoaded := true, bodyOverflow := "unset" }

/-- The unmount cleanup (`src/Index.tsx` lines 79-82):
`document.body.style.overflow = "unset"`. -/
def unmountCleanup (s : IndexState) : IndexState :=
  { s with bodyOverflow := "unset" }

/-- The render guard `{isLoaded && <div ...>}` (`src/Index.tsx` line 96):
the main content is mounted exactly when `isLoaded`. -/
def mainMounted (s : IndexState) : Bool := s.isLoaded

/-- The render guard `{!isLoaded && <Preloader ...>}` (`src/Index.tsx`
line 93). -/
def preloaderMounted (s : IndexState) : Bool := !s.isLoaded

/-- Page scroll is locked exactly when the body overflow style is
`"hidden"`. -/
def scrollLocked (s : IndexState) : Bool := s.bodyOverflow = "hidden"

/-- The events that can reach the mounted `Index` component: the preloader's
completion signal. -/
inductive IndexEvent where
  | preloadComplete
deriving DecidableEq

/-- One step of the page lifecycle. -/
def indexStep (s : IndexState) : IndexEvent → IndexState
  | IndexEvent.preloadComplete => handlePreloaderComplete s

/-- Run the page lifecycle over a sequence of events. -/
def runIndex (s : IndexState) (evs : List IndexEvent) : IndexState :=
  evs.foldl indexStep s

/-! ### Concrete document states used by the witnesses -/

/-- A document in which the `hero` anchor sits below the reference line
(top 200) and the `services` anchor straddles it; no other anchor is
present. -/
def docA : Document := fun s =>
  match s with
  | "hero" => some { top := 200, bottom := 900 }
  | "services" => some { top := 0, bottom := 150 }
  | _ => none

/-- A document in which no anchor is present at all. -/
def docNone : Document := fun _ => none

/-! ### Helper lemmas -/

/-- `find?` on a list split as `pre ++ sec :: post` returns `sec` when every
element of `pre` fails the predicate and `sec` satisfies it. -/
theorem find?_first {α : Type} (p : α → Bool) (pre post : List α) (sec : α)
    (hpre : ∀ s ∈ pre, p s = false) (hsec : p sec = true) :
    (pre ++ sec :: post).find? p = some sec := by
  induction pre with
  | nil => simp [List.find?_cons_of_pos, hsec]
  | cons a l ih =>
      have ha : p a = false := hpre a (by simp)
      rw [List.cons_append, List.find?_cons_of_neg _ (by simp [ha])]
      exact ih (fun s hs => hpre s (by simp [hs]))

/-- Every declared section identifier is a non-empty string. -/
theorem mem_sections_ne_empty {sec : String} (h : sec ∈ sections) : sec ≠ "" := by
  fin_cases h <;> decide

/-- When failing `q` forces failing `p`, searching a list with `find?` gives
the same result as searching only the elements satisfying `q`. -/
theorem find?_filter {α : Type} (p q : α → Bool) (l : List α)
    (h : ∀ a, q a = false → p a = false) :
    l.find? p = (l.filter q).find? p := by
  induction l with
  | nil => rfl
  | cons a t ih =>
      cases hq : q a with
      | true =>
          rw [List.filter_cons_of_pos (by simp [hq])]
          cases hpa : p a with
          | true => rw [List.find?_cons_of_pos _ hpa, List.find?_cons_of_pos _ hpa]
          | false =>
              rw [List.find?_cons_of_neg _ (by simp [hpa]),
                List.find?_cons_of_neg _ (by simp [hpa]), ih]
      | false =>
          rw [List.filter_cons_of_neg (by simp [hq]),
            List.find?_cons_of_neg _ (by simp [h a hq]), ih]

/-- `handleScroll` either keeps the previous `activeSection` or moves it to a
declared section. -/
theorem handleScroll_active (doc : Document) (scrollY : Int) (st : NavState) :
    (handleScroll doc scrollY st).activeSection = st.activeSection
      ∨ (handleScroll doc scrollY st).activeSection ∈ sections := by
  unfold handleScroll
  cases hf : sections.find? (sectionMatches doc) with
  | none => exact Or.inl rfl
  | some sec =>
      by_cases hsec : sec = ""
      · simp only [hsec, if_pos rfl]
        exact Or.inl rfl
      · simp only [if_neg hsec]
        exact Or.inr (List.mem_of_find?_eq_some hf)

/-- The scroll handler's threshold flag is exactly `scrollY > 50`. -/
theorem handleScroll_isScrolled (doc : Document) (scrollY : Int) (st : NavState) :
    (handleScroll doc scrollY st).isScrolled = decide (scrollY > 50) := by
  unfold handleScroll
  cases sections.find? (sectionMatches doc) with
  | none => rfl
  | some sec => by_cases hsec : sec = "" <;> simp [hsec]

/-- The active-section invariant is preserved along any run of scroll
events. -/
theorem runNav_active_invariant (evs : List ScrollEvent) (st : NavState)
    (h : st.activeSection = "" ∨ st.activeSection ∈ sections) :
    (runNav st evs).activeSection = "" ∨ (runNav st evs).activeSection ∈ sections := by
  induction evs generalizing st with
  | nil => exact h
  | cons e l ih =>
      show (runNav (handleScroll e.doc e.scrollY st) l).activeSection = ""
        ∨ (runNav (handleScroll e.doc e.scrollY st) l).activeSection ∈ sections
      apply ih
      rcases handleScroll_active e.doc e.scrollY st with h' | h'
      · rw [h']; exact h
      · exact Or.inr h'

/-- At most one rendered nav item can match a given string that is empty or a
declared section identifier. -/
theorem countFor_le_one (a : String) (h : a = "" ∨ a ∈ sections) :
    (navItems.filter (fun it => decide (it = a))).length ≤ 1 := by
  rcases h with h | h
  · subst h; decide
  · fin_cases h <;> decide

/-- A loaded page stays loaded across any further events. -/
theorem runIndex_stays_loaded (evs : List IndexEvent) (s : IndexState)
    (h : s.isLoaded = true) : (runIndex s evs).isLoaded = true := by
  induction evs generalizing s with
  | nil => exact h
  | cons e l ih =>
      show (runIndex (indexStep s e) l).isLoaded = true
      cases e with
      | preloadComplete => exact ih (handlePreloaderComplete s) rfl

/-! ### Claim theorems -/

/-- Claim C1: on every scroll event, `handleScroll` sets the active section to
the first region in the declared order `hero, services, work, about, contact`
whose bounding rectangle satisfies `top ≤ 100` and `bottom ≥ 100`; when several
regions' rectangles satisfy this, the earliest one in declared order wins: if
the declared list splits as `pre ++ sec :: post` with every region of `pre`
non-matching and `sec` matching, the result is `sec`, whatever `post`
contains. -/
theorem C1_active_is_first_match (doc : Document) (scrollY : Int) (st : NavState)
    (pre post : List String) (sec : String)
    (horder : sections = pre ++ sec :: post)
    (hmatch : sectionMatches doc sec = true)
    (hpre : ∀ s ∈ pre, sectionMatches doc s = false) :
    (handleScroll doc scrollY st).activeSection = sec := by
  have hmem : sec ∈ sections := by rw [horder]; simp
  have hne : sec ≠ "" := mem_sections_ne_empty hmem
  unfold handleScroll
  rw [horder, find?_first _ pre post sec hpre hmatch]
  simp [hne]

/-- Witness for C1: in `docA` the first region `hero` does not straddle the
reference line and the second region `services` does, so the handler activates
`services`. -/
theorem C1_witness :
    sections = ["hero"] ++ "services" :: ["work", "about", "contact"]
    ∧ sectionMatches docA "services" = true
    ∧ (∀ s ∈ ["hero"], sectionMatches docA s = false)
    ∧ (handleScroll docA 120 initNavState).activeSection = "services" :=
  ⟨rfl, by decide, by decide,
    C1_active_is_first_match docA 120 initNavState ["hero"] ["work", "about", "contact"]
      "services" rfl (by decide) (by decide)⟩

/-- Claim C2: on a scroll event in which no declared region matches the
100px reference-line test, `handleScroll` leaves the active section exactly as
it was — in particular it is never reset to the empty value. -/
theorem C2_retains_previous (doc : Document) (scrollY : Int) (st : NavState)
    (hnone : ∀ s ∈ sections, sectionMatches doc s = false) :
    (handleScroll doc scrollY st).activeSection = st.activeSection := by
  unfold handleScroll
  rw [List.find?_eq_none.mpr (fun a ha => by simp [hnone a ha])]

/-- Witness for C2: with no anchor present nothing matches, and a previously
computed active section `work` is retained. -/
theorem C2_witness :
    (∀ s ∈ sections, sectionMatches docNone s = false)
    ∧ (handleScroll docNone 10 { isScrolled := true, activeSection := "work" }).activeSection
        = "work" :=
  ⟨by decide,
    C2_retains_previous docNone 10 { isScrolled := true, activeSection := "work" } (by decide)⟩

/-- Claim C3: on every scroll event, `handleScroll` sets the past-threshold
flag to `true` exactly when the scroll offset is strictly greater than 50
pixels, and to `false` when the offset is at most 50 pixels. -/
theorem C3_threshold (doc : Document) (scrollY : Int) (st : NavState) :
    (handleScroll doc scrollY st).isScrolled = decide (scrollY > 50)
    ∧ ((handleScroll doc scrollY st).isScrolled = true ↔ scrollY > 50)
    ∧ ((handleScroll doc scrollY st).isScrolled = false ↔ scrollY ≤ 50) := by
  refine ⟨handleScroll_isScrolled doc scrollY st, ?_, ?_⟩
  · rw [handleScroll_isScrolled doc scrollY st]; simp
  · rw [handleScroll_isScrolled doc scrollY st]; simp

/-- Claim C4: the page lifecycle starts at Loading (`isLoaded = false`) with
page scroll locked and the main content not mounted; the preload-complete
signal moves it to Loaded, releasing the scroll lock and mounting the main
content; the transition is idempotent (a second completion signal changes
nothing) and the state never reverts to Loading under any further sequence of
events. -/
theorem C4_lifecycle (prior : String) (d : Bool) (evs : List IndexEvent) :
    (indexMount prior d).isLoaded = false
    ∧ scrollLocked (indexMount prior d) = true
    ∧ mainMounted (indexMount prior d) = false
    ∧ (handlePreloaderComplete (indexMount prior d)).isLoaded = true
    ∧ scrollLocked (handlePreloaderComplete (indexMount prior d)) = false
    ∧ mainMounted (handlePreloaderComplete (indexMount prior d)) = true
    ∧ handlePreloaderComplete (handlePreloaderComplete (indexMount prior d))
        = handlePreloaderComplete (indexMount prior d)
    ∧ (runIndex (handlePreloaderComplete (indexMount prior d)) evs).isLoaded = true :=
  ⟨rfl, rfl, rfl, rfl, rfl, rfl, rfl,
    runIndex_stays_loaded evs (handlePreloaderComplete (indexMount prior d)) rfl⟩

/-- Claim C5: starting from the initial navigation state, after any sequence
of scroll events the active section is either the empty value or a member of
the declared region set, and at most one rendered nav item carries the active
highlight. -/
theorem C5_invariant (evs : List ScrollEvent) :
    ((runNav initNavState evs).activeSection = ""
      ∨ (runNav initNavState evs).activeSection ∈ sections)
    ∧ activeIndicatorCount (runNav initNavState evs) ≤ 1 :=
  have h := runNav_active_invariant evs initNavState (Or.inl rfl)
  ⟨h, countFor_le_one (runNav initNavState evs).activeSection h⟩

/-- Claim C6: when the identifier resolves to a present anchor,
`scrollToSection` performs exactly one smooth `scrollIntoView` invocation
targeting that anchor, with the DOM-default `start` alignment that puts the
region's top at the viewport top; when the identifier does not resolve, it
performs no invocation at all. -/
theorem C6_scrollToSection (doc : Document) (sectionId : String) :
    (∀ r : Rect, doc sectionId = some r →
      scrollToSection doc sectionId
        = [{ target := sectionId, behavior := ScrollBehavior.smooth,
             block := BlockAlign.start }])
    ∧ (doc sectionId = none → scrollToSection doc sectionId = []) := by
  constructor
  · intro r h
    unfold scrollToSection
    rw [h]
  · intro h
    unfold scrollToSection
    rw [h]

/-- Witness for C6: in `docA` the `hero` anchor is present, so scrolling to it
issues exactly one smooth call; the `work` anchor is absent, so scrolling to it
issues none. -/
theorem C6_witness :
    docA "hero" = some { top := 200, bottom := 900 }
    ∧ scrollToSection docA "hero"
        = [{ target := "hero", behavior := ScrollBehavior.smooth,
             block := BlockAlign.start }]
    ∧ docA "work" = none
    ∧ scrollToSection docA "work" = [] :=
  ⟨rfl, (C6_scrollToSection docA "hero").1 { top := 200, bottom := 900 } rfl,
    rfl, (C6_scrollToSection docA "work").2 rfl⟩

/-- Claim C7: a declared region whose anchor is absent from the document is
treated as non-matching (the handler's explicit `return false` branch), so the
search behaves exactly as if it ran over only the present anchors; the handler
is a total function over all document states, scroll offsets and previous
states, so no error is ever raised. -/
theorem C7_missing_skipped (doc : Document) (scrollY : Int) (st : NavState) :
    (∀ sec : String, doc sec = none → sectionMatches doc sec = false)
    ∧ sections.find? (sectionMatches doc)
        = (sections.filter (fun sec => (doc sec).isSome)).find? (sectionMatches doc)
    ∧ handleScroll doc scrollY st
        = { isScrolled := (handleScroll doc scrollY st).isScrolled,
            activeSection := (handleScroll doc scrollY st).activeSection } := by
  refine ⟨?_, ?_, rfl⟩
  · intro sec h
    unfold sectionMatches
    rw [h]
  · apply find?_filter
    intro a ha
    unfold sectionMatches
    cases hd : doc a with
    | none => rfl
    | some r => rw [hd] at ha; simp at ha

/-- Witness for C7: in `docNone` the `work` anchor is absent and is treated as
non-matching. -/
theorem C7_witness :
    docNone "work" = none ∧ sectionMatches docNone "work" = false :=
  ⟨rfl, (C7_missing_skipped docNone 0 initNavState).1 "work" rfl⟩

/-- Claim C8: if the page component is torn down while still in the Loading
phase, the unmount cleanup writes `"unset"` to the body overflow style, so the
scroll lock is released and no locked-scroll state leaks. -/
theorem C8_cleanup_releases (s : IndexState) (_h : s.isLoaded = false) :
    (unmountCleanup s).bodyOverflow = "unset"
    ∧ scrollLocked (unmountCleanup s) = false :=
  ⟨rfl, rfl⟩

/-- Witness for C8: a freshly mounted page is still Loading, and running the
cleanup on it releases the lock. -/
theorem C8_witness :
    (indexMount "auto" false).isLoaded = false
    ∧ (unmountCleanup (indexMount "auto" false)).bodyOverflow = "unset"
    ∧ scrollLocked (unmountCleanup (indexMount "auto" false)) = false :=
  ⟨rfl, (C8_cleanup_releases (indexMount "auto" false) rfl).1,
    (C8_cleanup_releases (indexMount "auto" false) rfl).2⟩

/-- Claim C9: at initialization of the navigation component, before any scroll
event, the active section is the empty value (so no nav item is rendered
active) and the past-threshold flag is false; with no scroll events the state
is unchanged, and in this model the state is transformed only by
`handleScroll` runs. -/
theorem C9_initial_state :
    initNavState.activeSection = ""
    ∧ initNavState.isScrolled = false
    ∧ activeIndicatorCount initNavState = 0
    ∧ runNav initNavState [] = initNavState :=
  ⟨rfl, rfl, rfl, rfl⟩

/-- Claim C10: both releases of the scroll lock — the Loading-to-Loaded
transition and the unmount cleanup — write the fixed value `"unset"` to the
body overflow style; whatever overflow value the style held before the lock
was acquired is not restored whenever it differs from `"unset"`. -/
theorem C10_fixed_unset (s : IndexState) (prior : String) (hprior : prior ≠ "unset") :
    (handlePreloaderComplete s).bodyOverflow = "unset"
    ∧ (unmountCleanup s).bodyOverflow = "unset"
    ∧ (unmountCleanup (indexMount prior false)).bodyOverflow ≠ prior
    ∧ (handlePreloaderComplete (indexMount prior false)).bodyOverflow ≠ prior := by
  refine ⟨rfl, rfl, ?_, ?_⟩
  · intro h
    exact hprior ((show (unmountCleanup (indexMount prior false)).bodyOverflow
      = "unset" from rfl) ▸ h).symm
  · intro h
    exact hprior ((show (handlePreloaderComplete (indexMount prior false)).bodyOverflow
      = "unset" from rfl) ▸ h).symm

/-- Witness for C10: a pre-existing overflow value `"scroll"` is overwritten
with `"unset"` and not restored. -/
theorem C10_witness :
    ("scroll" : String) ≠ "unset"
    ∧ (unmountCleanup (indexMount "scroll" false)).bodyOverflow = "unset"
    ∧ (unmountCleanup (indexMount "scroll" false)).bodyOverflow ≠ "scroll" :=
  ⟨by decide,
    (C10_fixed_unset (indexMount "scroll" false) "scroll" (by decide)).2.1,
    (C10_fixed_unset (indexMount "scroll" false) "scroll" (by decide)).2.2.1⟩

end SDS
